import Mathlib

/-!
Shallow embedding of `scanpipe/pipes/fetch.py` (the artifact fetch
subsystem of scancode.io) and proofs of the specification claims about it.

Modelling conventions:

* Machine-level external boundaries (the `requests` HTTP client, the
  `commoncode.hash.multi_checksums` digest library, the plugincode location
  provider, `pipes.run_command` subprocess execution, `json.loads`, and
  `commoncode.text.python_safe_name`) are fields of an `Env` record: the
  embedding quantifies over every possible behaviour of these collaborators.
* The filesystem is an explicit `FS` state threaded through each operation:
  Python exceptions become `Except` errors paired with the state reached at
  the raise point (side effects performed before a raise persist, as in
  Python).
* Python/JSON values reachable by the manifest-parsing code are embedded as
  `PJson`, with Python truthiness (`pyTruthy`), `dict.get` (`pyGet`) and the
  `x or default` idiom (`pyOr`) reproduced exactly.
-/

/-- Values produced by `json.loads`, as far as the fetch code can observe
them: null, booleans, numbers (floats are not distinguished; no claim
involves numeric content), strings, arrays and objects. -/
inductive PJson where
  | null
  | bool (b : Bool)
  | num (n : Int)
  | str (s : String)
  | arr (elems : List PJson)
  | obj (fields : List (String × PJson))
deriving Repr, Inhabited

/-- Python truthiness of a JSON value: `None`, `False`, `0`, `""`, `[]` and
`{}` are falsy, everything else is truthy. -/
def pyTruthy : PJson → Bool
  | .null => false
  | .bool b => b
  | .num n => n != 0
  | .str s => s != ""
  | .arr elems => !elems.isEmpty
  | .obj fields => !fields.isEmpty

/-- `d.get(key)`: the value stored under `key`, or Python `None` when the
key is absent. -/
def pyGet (fields : List (String × PJson)) (key : String) : PJson :=
  match fields.lookup key with
  | some v => v
  | none => .null

/-- The Python idiom `v or d`: `v` when truthy, otherwise `d`. -/
def pyOr (v d : PJson) : PJson :=
  if pyTruthy v then v else d

/-- Python `str()` formatting as used inside f-strings, for the values
`PJson` can hold. String content is inserted verbatim; containers use a
simplified repr (claims never depend on container formatting). -/
def pyFormat : PJson → String
  | .null => "None"
  | .bool true => "True"
  | .bool false => "False"
  | .num n => toString n
  | .str s => s
  | .arr _ => "[...]"
  | .obj _ => "{...}"

/-- Python `s.startswith(pre)`, computed structurally on the character
lists (the core `String.startsWith` does not reduce definitionally, which
would block evaluating the embedding on concrete inputs). -/
def pyStartsWith (s pre : String) : Bool :=
  pre.data.isPrefixOf s.data

/-- Split a character list at every occurrence of the (non-empty)
separator, keeping empty pieces; the fuel argument (instantiated with the
input length) makes the recursion structural. -/
def splitOnCharsAux (sep : List Char) : Nat → List Char → List Char →
    List (List Char)
  | 0, acc, s => [acc.reverse ++ s]
  | _ + 1, acc, [] => [acc.reverse]
  | fuel + 1, acc, c :: rest =>
    if sep.isPrefixOf (c :: rest) then
      acc.reverse ::
        splitOnCharsAux sep fuel [] (List.drop (sep.length - 1) rest)
    else splitOnCharsAux sep fuel (c :: acc) rest

/-- Python `s.split(sep)` for a non-empty separator: empty pieces kept. -/
def pySplitOnStr (s sep : String) : List String :=
  (splitOnCharsAux sep.data s.data.length [] s.data).map String.mk

/-- Split at every character satisfying `p`, keeping empty pieces. -/
def splitByAux (p : Char → Bool) : List Char → List Char → List (List Char)
  | acc, [] => [acc.reverse]
  | acc, c :: rest =>
    if p c then acc.reverse :: splitByAux p [] rest
    else splitByAux p (c :: acc) rest

/-- Split a string at every character satisfying `p`. -/
def pySplitBy (p : Char → Bool) (s : String) : List String :=
  (splitByAux p [] s.data).map String.mk

/-- Python `s.strip()` over the whitespace class of `Char.isWhitespace`. -/
def pyStrip (s : String) : String :=
  String.mk (((s.data.dropWhile Char.isWhitespace).reverse.dropWhile
    Char.isWhitespace).reverse)

/-- Python `s.replace(pat, rep)` for the non-empty pattern used by the
source (`"docker://"`), with fuel for structural termination. -/
def replaceCharsAux (pat rep : List Char) : Nat → List Char → List Char
  | 0, s => s
  | _ + 1, [] => []
  | fuel + 1, c :: rest =>
    if pat.isPrefixOf (c :: rest) then
      rep ++ replaceCharsAux pat rep fuel (List.drop (pat.length - 1) rest)
    else c :: replaceCharsAux pat rep fuel rest

/-- Python `s.replace(pat, rep)`. -/
def pyReplace (s pat rep : String) : String :=
  String.mk (replaceCharsAux pat.data rep.data s.data.length s.data)

/-- Errors raised by the embedded Python code. -/
inductive PyError where
  | requestException
  | toolNotInstalled (msg : String)
  | fetchDockerImage (output : String)
  | attributeError
  | typeError
  | fileNotFound
deriving Repr, DecidableEq

/-- The filesystem state: file contents by path, the list of directories
created so far, and a counter supplying fresh `tempfile.mkdtemp` names. -/
structure FS where
  files : String → Option (List Nat)
  dirs : List String
  tmpCounter : Nat

/-- `tempfile.mkdtemp()`: returns a fresh directory path and records its
creation. -/
def mkdtemp (fs : FS) : String × FS :=
  let name := "/tmp/tmp" ++ toString fs.tmpCounter
  (name, { fs with dirs := name :: fs.dirs, tmpCounter := fs.tmpCounter + 1 })

/-- `open(path, "wb").write(content)`: create or truncate the file. -/
def writeFile (fs : FS) (path : String) (content : List Nat) : FS :=
  { fs with files := fun p => if p = path then some content else fs.files p }

/-- `pathlib.Path(dir, name)` joining, for the shapes the fetch code
produces (an absolute second argument supersedes the first, as in pathlib;
no dot-segment normalisation is modelled). -/
def pathJoin (dir name : String) : String :=
  if pyStartsWith name "/" then name else dir ++ "/" ++ name

/-- `urllib.parse.urlparse(url).path` for http(s)-style URLs: drop the
fragment and query, and when a `scheme://netloc` head is present the path
is everything from the first slash after the authority. -/
def urlparsePath (url : String) : String :=
  let beforeFragment := (pySplitOnStr url "#").headD url
  let beforeQuery := (pySplitOnStr beforeFragment "?").headD beforeFragment
  match pySplitOnStr beforeQuery "://" with
  | _scheme :: restHead :: restTail =>
    let afterScheme := String.intercalate "://" (restHead :: restTail)
    match pySplitOnStr afterScheme "/" with
    | _netloc :: pathParts =>
      if pathParts.isEmpty then "" else "/" ++ String.intercalate "/" pathParts
    | [] => ""
  | _ => beforeQuery

/-- `pathlib.Path(path).name`: the last path component, with empty and
current-directory components dropped as pathlib does. -/
def pathlibName (path : String) : String :=
  let parts := (pySplitOnStr path "/").filter (fun p => p != "" && p != ".")
  (parts.getLast?).getD ""

/-- One successfully fetched artifact, mirroring the
`Download = namedtuple("Download", "uri directory filename path size sha1 md5")`
record of the source. -/
structure Download where
  uri : String
  directory : String
  filename : String
  path : String
  size : Nat
  sha1 : String
  md5 : String
deriving Repr, DecidableEq

/-- What the fetch code observes of one `requests.get` response: the status
code, the params of a parsed `Content-Disposition` header (the output of the
stdlib `cgi.parse_header`), the effective post-redirect URL, and the body
bytes. -/
structure HttpResponse where
  status_code : Nat
  cdParams : List (String × String)
  url : String
  content : List Nat

/-- The external collaborators of the fetch subsystem. The embedding is
parametric in all of them. `runEffect` is the (arbitrary) action of a
subprocess on the filesystem; `runCommand` its exit code and combined
output. -/
structure Env where
  http : String → HttpResponse
  md5 : List Nat → String
  sha1 : List Nat → String
  skopeoBindir : String
  isDir : String → Bool
  runCommand : String → Int × String
  runEffect : String → FS → FS
  parseJson : String → Except PyError PJson
  pythonSafeName : String → String

/-- `commoncode.hash.multi_checksums(path, ("md5", "sha1"))`: reads the file
and digests its content; raises when the file does not exist. -/
def multi_checksums (env : Env) (fs : FS) (path : String) :
    Except PyError (String × String) :=
  match fs.files path with
  | none => .error .fileNotFound
  | some c => .ok (env.md5 c, env.sha1 c)

/-- `Path(path).stat().st_size`: byte length of the file on disk. -/
def statSize (fs : FS) (path : String) : Except PyError Nat :=
  match fs.files path with
  | none => .error .fileNotFound
  | some c => .ok c.length

/-- Filename resolution of `fetch_http`: the `filename` parameter of the
`Content-Disposition` header when present and non-empty, otherwise the last
path segment of the effective (post-redirect) response URL. -/
def httpFilename (response : HttpResponse) : String :=
  match response.cdParams.lookup "filename" with
  | some f => if f = "" then pathlibName (urlparsePath response.url) else f
  | none => pathlibName (urlparsePath response.url)

/-- `to or tempfile.mkdtemp()` (the `to` parameter is called `toDir` here; `to` is reserved). -/
def resolveDirectory (toDir : Option String) (fs : FS) : String × FS :=
  match toDir with
  | some d => (d, fs)
  | none => mkdtemp fs

/-- `fetch_http(uri, to=None)`: GET the URI, require a 200 status, resolve
the destination filename, write the body, digest the written file, and
return the `Download`.  `size` is the in-memory body length, as in the
source. -/
def fetch_http (env : Env) (uri : String) (toDir : Option String) (fs : FS) :
    Except PyError Download × FS :=
  let response := env.http uri
  if response.status_code ≠ 200 then
    (.error .requestException, fs)
  else
    let filename := httpFilename response
    let dd := resolveDirectory toDir fs
    let download_directory := dd.1
    let output_file := pathJoin download_directory filename
    let file_content := response.content
    let fs2 := writeFile dd.2 output_file file_content
    match multi_checksums env fs2 output_file with
    | .error e => (.error e, fs2)
    | .ok checksums =>
      (.ok { uri := uri, directory := download_directory, filename := filename,
             path := output_file, size := file_content.length,
             sha1 := checksums.2, md5 := checksums.1 }, fs2)

/-- The message of the exception raised by `_get_skopeo_location` when the
skopeo binary directory is missing. -/
def skopeoMissingMsg : String :=
  "CRITICAL: skopeo executable is not installed. Unable to continue: you need to install a valid fetchcode_container plugin with a valid executable available."

/-- `_get_skopeo_location()`: look up the
`fetchcode_container.skopeo.bindir` location and fail unless it is a
directory. -/
def _get_skopeo_location (env : Env) : Except PyError String :=
  let bin_location := env.skopeoBindir
  if env.isDir bin_location then .ok bin_location
  else .error (.toolNotInstalled skopeoMissingMsg)

/-- The `skopeo inspect` command line built by `get_docker_image_platform`. -/
def inspectCmd (skopeo_executable docker_reference : String) : String :=
  skopeo_executable ++ " inspect --insecure-policy --raw --no-creds " ++
    docker_reference

/-- The `for manifest in ...` loop of `get_docker_image_platform`: the first
manifest whose `platform` value is truthy yields the
(os, architecture, variant) triple with the source's `or`-defaults; a
truthy non-object along the way raises `AttributeError` (`.get` on a
non-dict), as in Python. -/
def platformFromManifests :
    List PJson → Except PyError (Option (PJson × PJson × PJson))
  | [] => .ok none
  | m :: rest =>
    match m with
    | .obj mf =>
      match pyOr (pyGet mf "platform") (.obj []) with
      | .obj pf =>
        if pyTruthy (.obj pf) then
          .ok (some (pyOr (pyGet pf "os") (.str "linux"),
                     pyOr (pyGet pf "architecture") (.str "amd64"),
                     pyOr (pyGet pf "variant") (.str "")))
        else platformFromManifests rest
      | _ => .error .attributeError
    | _ => .error .attributeError

/-- The parsing core of `get_docker_image_platform`, applied to the decoded
inspect JSON: iterate `inspection.get("manifests") or []`.  A truthy
non-array `manifests` value makes the Python loop fail (iterating a string
or dict reaches `.get` on a non-dict, hence `AttributeError`; a number or
boolean is not iterable, hence `TypeError`). -/
def get_platform_from_inspection (inspection : PJson) :
    Except PyError (Option (PJson × PJson × PJson)) :=
  match inspection with
  | .obj fields =>
    match pyOr (pyGet fields "manifests") (.arr []) with
    | .arr manifests => platformFromManifests manifests
    | .str _ => .error .attributeError
    | .obj _ => .error .attributeError
    | _ => .error .typeError
  | _ => .error .attributeError

/-- `get_docker_image_platform(docker_reference)`: locate skopeo, run its
inspect subcommand, fail on a non-zero exit, decode the JSON output and
select the platform triple. -/
def get_docker_image_platform (env : Env) (docker_reference : String)
    (fs : FS) : Except PyError (Option (PJson × PJson × PJson)) × FS :=
  match _get_skopeo_location env with
  | .error e => (.error e, fs)
  | .ok skopeo_bin_path =>
    let skopeo_executable := pathJoin skopeo_bin_path "skopeo"
    let cmd := inspectCmd skopeo_executable docker_reference
    let run := env.runCommand cmd
    let fs1 := env.runEffect cmd fs
    if run.1 ≠ 0 then (.error (.fetchDockerImage run.2), fs1)
    else
      match env.parseJson run.2 with
      | .error e => (.error e, fs1)
      | .ok inspection => (get_platform_from_inspection inspection, fs1)

/-- The `platform_args` list of `fetch_docker_image`: one
`--override-<dim>=<value>` flag per truthy component of the resolved
platform triple, nothing when resolution returned `None`. -/
def dockerPlatformArgs : Option (PJson × PJson × PJson) → List String
  | none => []
  | some (os, arch, variant) =>
    (if pyTruthy os then ["--override-os=" ++ pyFormat os] else []) ++
      (if pyTruthy arch then ["--override-arch=" ++ pyFormat arch] else []) ++
      (if pyTruthy variant then ["--override-variant=" ++ pyFormat variant]
       else [])

/-- The `skopeo copy` command line built by `fetch_docker_image` (note the
f-string keeps a space on each side of `platform_args` even when it is
empty). -/
def dockerCopyCmd (skopeo_executable platform_args docker_reference
    target : String) : String :=
  skopeo_executable ++ " copy --insecure-policy " ++ platform_args ++ " " ++
    docker_reference ++ " " ++ target

/-- `fetch_docker_image(docker_reference, to=None)`: derive the archive
name, locate skopeo, resolve the platform, run the copy subcommand, fail on
a non-zero exit, then digest and stat the archive skopeo wrote.  `size` is
read back from disk, unlike `fetch_http`. -/
def fetch_docker_image (env : Env) (docker_reference : String)
    (toDir : Option String) (fs : FS) : Except PyError Download × FS :=
  let name := env.pythonSafeName (pyReplace docker_reference "docker://" "")
  let filename := name ++ ".tar"
  let dd := resolveDirectory toDir fs
  let download_directory := dd.1
  let output_file := pathJoin download_directory filename
  let target := "docker-archive:" ++ output_file
  match _get_skopeo_location env with
  | .error e => (.error e, dd.2)
  | .ok skopeo_bin_path =>
    let skopeo_executable := pathJoin skopeo_bin_path "skopeo"
    match get_docker_image_platform env docker_reference dd.2 with
    | (.error e, fs2) => (.error e, fs2)
    | (.ok platform, fs2) =>
      let platform_args := String.intercalate " " (dockerPlatformArgs platform)
      let cmd := dockerCopyCmd skopeo_executable platform_args
        docker_reference target
      let run := env.runCommand cmd
      let fs3 := env.runEffect cmd fs2
      if run.1 ≠ 0 then (.error (.fetchDockerImage run.2), fs3)
      else
        match multi_checksums env fs3 output_file with
        | .error e => (.error e, fs3)
        | .ok checksums =>
          match statSize fs3 output_file with
          | .error e => (.error e, fs3)
          | .ok size =>
            (.ok { uri := docker_reference, directory := download_directory,
                   filename := filename, path := output_file, size := size,
                   sha1 := checksums.2, md5 := checksums.1 }, fs3)

/-- The two fetchers `_get_fetcher` can select. -/
inductive Fetcher where
  | http
  | dockerImage
deriving Repr, DecidableEq

/-- `_get_fetcher(url)`: registry fetcher for `docker://` URLs, HTTP
fetcher for everything else. -/
def _get_fetcher (url : String) : Fetcher :=
  if pyStartsWith url "docker://" then .dockerImage else .http

/-- One iteration body of the `fetch_urls` loop: dispatch and run the
selected fetcher on the current state. -/
def applyFetcher (env : Env) (url : String) (fs : FS) :
    Except PyError Download × FS :=
  match _get_fetcher url with
  | .dockerImage => fetch_docker_image env url none fs
  | .http => fetch_http env url none fs

/-- The `for url in urls` loop of `fetch_urls`, generic in the per-URL
fetch step: successes are appended to `downloads`, any fetcher error
appends the original URL string to `errors` and processing continues with
the state the failed step left behind. -/
def runFetchLoop (step : String → FS → Except PyError Download × FS) :
    List String → FS → (List Download × List String) × FS
  | [], fs => (([], []), fs)
  | url :: rest, fs =>
    let r := step url fs
    let restResult := runFetchLoop step rest r.2
    match r.1 with
    | .ok d => ((d :: restResult.1.1, restResult.1.2), restResult.2)
    | .error _ => ((restResult.1.1, url :: restResult.1.2), restResult.2)

/-- The `fetch_urls` loop with the dispatching fetcher as its step. -/
def fetchUrlsLoop (env : Env) : List String → FS →
    (List Download × List String) × FS :=
  runFetchLoop (applyFetcher env)

/-- The two input shapes `fetch_urls` accepts: a list of URL strings, or a
single whitespace-separated string. -/
inductive UrlsInput where
  | str (s : String)
  | list (l : List String)

/-- Python `s.split()`: split on whitespace runs, never yielding empty
tokens. -/
def pySplitWhitespace (s : String) : List String :=
  (pySplitBy Char.isWhitespace s).filter (fun t => t != "")

/-- The URL list `fetch_urls` iterates:
`[url.strip() for url in urls.split()]` for string input, the list itself
otherwise. -/
def inputUris : UrlsInput → List String
  | .str s => (pySplitWhitespace s).map pyStrip
  | .list l => l

/-- `fetch_urls(urls)`: normalise the input to a URL list and run the fetch
loop over it. -/
def fetch_urls (env : Env) (input : UrlsInput) (fs : FS) :
    (List Download × List String) × FS :=
  fetchUrlsLoop env (inputUris input) fs

/-- `Partitioned a b l`: `l` is an interleaving of `a` and `b`; each of the
two lists preserves the relative order of the subset of `l` it carries, and
every position of `l` is accounted for exactly once. -/
inductive Partitioned {α : Type} : List α → List α → List α → Prop
  | nil : Partitioned [] [] []
  | left {x : α} {a b l : List α} :
      Partitioned a b l → Partitioned (x :: a) b (x :: l)
  | right {x : α} {a b l : List α} :
      Partitioned a b l → Partitioned a (x :: b) (x :: l)

theorem partitioned_length {α : Type} {a b l : List α}
    (h : Partitioned a b l) : a.length + b.length = l.length := by
  induction h with
  | nil => rfl
  | left _ ih => simp only [List.length_cons]; omega
  | right _ ih => simp only [List.length_cons]; omega

theorem fetch_http_ok_uri (env : Env) (uri : String) (toDir : Option String)
    (fs : FS) (d : Download)
    (h : (fetch_http env uri toDir fs).1 = .ok d) : d.uri = uri := by
  simp only [fetch_http] at h
  split at h
  · simp at h
  · split at h
    · simp at h
    · simp only [Except.ok.injEq] at h
      rw [← h]

theorem fetch_docker_image_ok_uri (env : Env) (ref : String)
    (toDir : Option String) (fs : FS) (d : Download)
    (h : (fetch_docker_image env ref toDir fs).1 = .ok d) : d.uri = ref := by
  simp only [fetch_docker_image] at h
  split at h
  · simp at h
  · split at h
    · simp at h
    · split at h
      · simp at h
      · split at h
        · simp at h
        · split at h
          · simp at h
          · simp only [Except.ok.injEq] at h
            rw [← h]

theorem applyFetcher_ok_uri (env : Env) (url : String) (fs : FS)
    (d : Download) (h : (applyFetcher env url fs).1 = .ok d) : d.uri = url := by
  unfold applyFetcher _get_fetcher at h
  by_cases hd : pyStartsWith url "docker://"
  · simp only [hd, if_true] at h
    exact fetch_docker_image_ok_uri env url none fs d h
  · simp only [hd, if_false] at h
    exact fetch_http_ok_uri env url none fs d h

theorem runFetchLoop_partitioned
    (step : String → FS → Except PyError Download × FS)
    (hstep : ∀ url fs d, (step url fs).1 = .ok d → d.uri = url)
    (urls : List String) (fs : FS) :
    Partitioned (((runFetchLoop step urls fs).1.1).map Download.uri)
      ((runFetchLoop step urls fs).1.2) urls := by
  induction urls generalizing fs with
  | nil => exact .nil
  | cons url rest ih =>
    rcases hres : (step url fs).1 with e | d
    · simp only [runFetchLoop, hres]
      exact .right (ih _)
    · simp only [runFetchLoop, hres]
      rw [List.map_cons, hstep url fs d hres]
      exact .left (ih _)

theorem runFetchLoop_error_cons
    (step : String → FS → Except PyError Download × FS) (url : String)
    (rest : List String) (fs fs1 : FS) (e : PyError)
    (h : step url fs = (.error e, fs1)) :
    runFetchLoop step (url :: rest) fs =
      (((runFetchLoop step rest fs1).1.1,
        url :: (runFetchLoop step rest fs1).1.2),
       (runFetchLoop step rest fs1).2) := by
  simp only [runFetchLoop, h]

theorem runFetchLoop_error_head
    (step : String → FS → Except PyError Download × FS) (url : String)
    (rest : List String) (fs : FS) (e : PyError)
    (h : (step url fs).1 = .error e) :
    runFetchLoop step (url :: rest) fs =
      (((runFetchLoop step rest (step url fs).2).1.1,
        url :: (runFetchLoop step rest (step url fs).2).1.2),
       (runFetchLoop step rest (step url fs).2).2) := by
  simp only [runFetchLoop, h]

/-- C1: for every batch input (URL list, or a single string whose
whitespace-delimited non-empty tokens form the list), `fetch_urls` returns
`(downloads, errors)` with `downloads.length + errors.length` equal to the
number of input URIs, and the input URI sequence is exactly an
order-preserving interleaving of the downloads' `uri` fields and the error
strings: every input occurrence lands in exactly one of the two lists and
each list keeps the relative input order of its subset. -/
theorem fetch_urls_accounts_for_every_input (env : Env) (input : UrlsInput)
    (fs : FS) :
    ((fetch_urls env input fs).1.1).length +
        ((fetch_urls env input fs).1.2).length = (inputUris input).length ∧
      Partitioned (((fetch_urls env input fs).1.1).map Download.uri)
        ((fetch_urls env input fs).1.2) (inputUris input) := by
  have hp : Partitioned (((fetch_urls env input fs).1.1).map Download.uri)
      ((fetch_urls env input fs).1.2) (inputUris input) := by
    simp only [fetch_urls, fetchUrlsLoop]
    exact runFetchLoop_partitioned (applyFetcher env)
      (fun url fs d h => applyFetcher_ok_uri env url fs d h)
      (inputUris input) fs
  refine ⟨?_, hp⟩
  have hl := partitioned_length hp
  simpa using hl

/-- C2: any error raised by the fetcher selected for one URL is caught by
`fetch_urls`: the original URL string (not a partial result) is appended to
the error list, the remaining URLs are still processed (from the state the
failed fetcher left behind), and no fetcher error escapes the batch call,
whose result type is a plain pair. -/
theorem fetch_urls_isolates_fetcher_errors (env : Env) (url : String)
    (rest : List String) (fs fs1 : FS) (e : PyError)
    (h : applyFetcher env url fs = (.error e, fs1)) :
    fetch_urls env (.list (url :: rest)) fs =
      (((fetchUrlsLoop env rest fs1).1.1,
        url :: (fetchUrlsLoop env rest fs1).1.2),
       (fetchUrlsLoop env rest fs1).2) := by
  show fetchUrlsLoop env (url :: rest) fs = _
  simp only [fetchUrlsLoop]
  exact runFetchLoop_error_cons (applyFetcher env) url rest fs fs1 e h

theorem fetch_http_spec (env : Env) (uri : String) (toDir : Option String)
    (fs : FS) :
    fetch_http env uri toDir fs =
      if (env.http uri).status_code = 200 then
        (.ok { uri := uri,
               directory := (resolveDirectory toDir fs).1,
               filename := httpFilename (env.http uri),
               path := pathJoin (resolveDirectory toDir fs).1
                 (httpFilename (env.http uri)),
               size := (env.http uri).content.length,
               sha1 := env.sha1 (env.http uri).content,
               md5 := env.md5 (env.http uri).content },
         writeFile (resolveDirectory toDir fs).2
           (pathJoin (resolveDirectory toDir fs).1 (httpFilename (env.http uri)))
           (env.http uri).content)
      else (.error .requestException, fs) := by
  by_cases hs : (env.http uri).status_code = 200
  · simp only [fetch_http, hs, if_pos, ne_eq, not_true_eq_false, if_false,
      if_true, multi_checksums, writeFile, if_pos rfl]
  · simp only [fetch_http, ne_eq, hs, not_false_eq_true, if_true, if_false,
      if_neg hs]

/-- C9: when the HTTP response status is not 200, `fetch_http` raises
before the destination directory is resolved or created and before any file
is written: the call returns the HTTP-status error and the filesystem state
(files, directories and the temp-name supply) is exactly the input state. -/
theorem fetch_http_non_200_leaves_fs_unchanged (env : Env) (uri : String)
    (toDir : Option String) (fs : FS)
    (h : (env.http uri).status_code ≠ 200) :
    fetch_http env uri toDir fs = (.error .requestException, fs) := by
  rw [fetch_http_spec, if_neg h]

/-- C5: `fetch_http` fails with the designated HTTP-status error whenever
the (post-redirect) response status differs from 200, and it returns a
`Download` only when that status is exactly 200. -/
theorem fetch_http_requires_status_200 (env : Env) (uri : String)
    (toDir : Option String) (fs : FS) :
    ((env.http uri).status_code ≠ 200 →
      (fetch_http env uri toDir fs).1 = .error .requestException) ∧
    (∀ d, (fetch_http env uri toDir fs).1 = .ok d →
      (env.http uri).status_code = 200) := by
  constructor
  · intro h
    rw [fetch_http_spec, if_neg h]
  · intro d h
    by_contra hne
    rw [fetch_http_spec, if_neg hne] at h
    simp at h

/-- C6: for every successful HTTP fetch, the `Download` filename is the
`filename` parameter of the parsed `Content-Disposition` header when that
parameter is present and non-empty, and otherwise the final path segment of
the post-redirect effective URL (`response.url`, not the request URI). -/
theorem fetch_http_filename_resolution (env : Env) (uri : String)
    (toDir : Option String) (fs : FS) (d : Download)
    (h : (fetch_http env uri toDir fs).1 = .ok d) :
    (∀ f, ((env.http uri).cdParams).lookup "filename" = some f → f ≠ "" →
      d.filename = f) ∧
    (((env.http uri).cdParams).lookup "filename" = none ∨
        ((env.http uri).cdParams).lookup "filename" = some "" →
      d.filename = pathlibName (urlparsePath (env.http uri).url)) := by
  rw [fetch_http_spec] at h
  by_cases hs : (env.http uri).status_code = 200
  · rw [if_pos hs] at h
    dsimp only at h
    injection h with h
    have hfn : d.filename = httpFilename (env.http uri) := by rw [← h]
    constructor
    · intro f hf hne
      rw [hfn]
      simp only [httpFilename, hf, if_neg hne]
    · intro hcase
      rcases hcase with hnone | hempty
      · rw [hfn]
        simp only [httpFilename, hnone]
      · rw [hfn]
        simp [httpFilename, hempty]
  · rw [if_neg hs] at h
    simp at h

theorem fetch_docker_image_ok_pair (env : Env) (ref : String)
    (toDir : Option String) (fs fs2 : FS) (d : Download)
    (h : fetch_docker_image env ref toDir fs = (.ok d, fs2)) :
    ∃ c, fs2.files d.path = some c ∧ d.md5 = env.md5 c ∧
      d.sha1 = env.sha1 c ∧ d.size = c.length := by
  simp only [fetch_docker_image] at h
  split at h
  · simp at h
  · split at h
    · simp at h
    · split at h
      · simp at h
      · split at h
        · simp at h
        · rename_i checksums hcks
          split at h
          · simp at h
          · rename_i size hsz
            simp only [Prod.mk.injEq, Except.ok.injEq] at h
            obtain ⟨hd, hfs⟩ := h
            simp only [multi_checksums] at hcks
            split at hcks
            · simp at hcks
            · rename_i c hc
              simp only [statSize, hc, Except.ok.injEq] at hsz
              simp only [Except.ok.injEq] at hcks
              refine ⟨c, ?_, ?_, ?_, ?_⟩
              · rw [← hfs, ← hd]
                exact hc
              · rw [← hd, ← hcks]
              · rw [← hd, ← hcks]
              · rw [← hd, ← hsz]

/-- C3: a `Download` is only returned (by either fetcher) once the file at
its `path` exists in the resulting filesystem state, its `md5` and `sha1`
are the digests of exactly that file's content, and its `size` equals the
byte length of that content at the moment of fetch. -/
theorem download_only_after_verified_write (env : Env) (uri : String)
    (toDir : Option String) (fs : FS) :
    (∀ d, (fetch_http env uri toDir fs).1 = .ok d →
      ∃ c, ((fetch_http env uri toDir fs).2).files d.path = some c ∧
        d.md5 = env.md5 c ∧ d.sha1 = env.sha1 c ∧ d.size = c.length) ∧
    (∀ d, (fetch_docker_image env uri toDir fs).1 = .ok d →
      ∃ c, ((fetch_docker_image env uri toDir fs).2).files d.path = some c ∧
        d.md5 = env.md5 c ∧ d.sha1 = env.sha1 c ∧ d.size = c.length) := by
  constructor
  · intro d h
    rw [fetch_http_spec] at h
    rw [fetch_http_spec]
    by_cases hs : (env.http uri).status_code = 200
    · rw [if_pos hs] at h
      rw [if_pos hs]
      dsimp only at h ⊢
      injection h with h
      refine ⟨(env.http uri).content, ?_, ?_, ?_, ?_⟩
      · rw [← h]
        simp [writeFile]
      · rw [← h]
      · rw [← h]
      · rw [← h]
    · rw [if_neg hs] at h
      simp at h
  · intro d h
    have hpair : fetch_docker_image env uri toDir fs =
        (.ok d, (fetch_docker_image env uri toDir fs).2) := by
      rw [← h]
    exact fetch_docker_image_ok_pair env uri toDir fs
      ((fetch_docker_image env uri toDir fs).2) d hpair

theorem pyOr_truthy (v d : PJson) (hd : pyTruthy d = true) :
    pyTruthy (pyOr v d) = true := by
  rw [pyOr]
  split
  · assumption
  · exact hd

theorem platformFromManifests_skip (pre rest : List PJson)
    (hpre : ∀ e ∈ pre, ∃ ef, e = PJson.obj ef ∧
      pyTruthy (pyGet ef "platform") = false) :
    platformFromManifests (pre ++ rest) = platformFromManifests rest := by
  induction pre with
  | nil => rfl
  | cons e pre ih =>
    obtain ⟨ef, he, hf⟩ := hpre e (by simp)
    subst he
    have hor : pyOr (pyGet ef "platform") (PJson.obj []) = PJson.obj [] := by
      rw [pyOr, if_neg]
      simp [hf]
    have hrec : platformFromManifests (pre ++ rest) = platformFromManifests rest :=
      ih (fun x hx => hpre x (by simp [hx]))
    simp only [List.cons_append, platformFromManifests, hor]
    rw [if_neg]
    · exact hrec
    · simp [pyTruthy]

/-- C4: when the inspect output's top-level object has a `manifests` array,
platform resolution walks the entries in their listed order and returns the
triple extracted from the first entry carrying a (non-degenerate) platform
object — `os` defaulting to "linux" when missing or falsy, `architecture`
to "amd64", `variant` to the empty string — independent of every later
entry (`post` is unconstrained). -/
theorem platform_first_entry_wins (fields : List (String × PJson))
    (pre post : List PJson) (mf pf : List (String × PJson))
    (hman : pyGet fields "manifests" = .arr (pre ++ PJson.obj mf :: post))
    (hpre : ∀ e ∈ pre, ∃ ef, e = PJson.obj ef ∧
      pyTruthy (pyGet ef "platform") = false)
    (hp : pyGet mf "platform" = .obj pf)
    (hpt : pyTruthy (PJson.obj pf) = true) :
    get_platform_from_inspection (.obj fields) =
      .ok (some (pyOr (pyGet pf "os") (.str "linux"),
                 pyOr (pyGet pf "architecture") (.str "amd64"),
                 pyOr (pyGet pf "variant") (.str ""))) := by
  have harr : pyOr (pyGet fields "manifests") (.arr []) =
      .arr (pre ++ PJson.obj mf :: post) := by
    rw [hman, pyOr, if_pos]
    simp [pyTruthy]
  simp only [get_platform_from_inspection, harr]
  rw [platformFromManifests_skip pre _ hpre]
  have hor : pyOr (pyGet mf "platform") (PJson.obj []) = PJson.obj pf := by
    rw [hp, pyOr, if_pos hpt]
  simp only [platformFromManifests, hor]
  rw [if_pos hpt]

/-- C7: when the inspect output has no truthy `manifests` array (the key is
absent or falsy) or every manifest entry's platform is falsy, platform
resolution returns `None` rather than raising, and the copy command built
from a `None` platform carries no `--override-os`, `--override-arch` or
`--override-variant` flag: its flag list is empty and its joined
`platform_args` segment is the empty string. -/
theorem platform_none_and_no_override_flags (fields : List (String × PJson))
    (ms : List PJson)
    (hman : pyOr (pyGet fields "manifests") (.arr []) = .arr ms)
    (hall : ∀ e ∈ ms, ∃ ef, e = PJson.obj ef ∧
      pyTruthy (pyGet ef "platform") = false) :
    get_platform_from_inspection (.obj fields) = .ok none ∧
      dockerPlatformArgs none = [] ∧
      String.intercalate " " (dockerPlatformArgs none) = "" := by
  refine ⟨?_, rfl, rfl⟩
  simp only [get_platform_from_inspection, hman]
  have h0 := platformFromManifests_skip ms [] hall
  rw [List.append_nil] at h0
  rw [h0]
  rfl

theorem platformFromManifests_truthy (ms : List PJson)
    (os arch variant : PJson)
    (h : platformFromManifests ms = .ok (some (os, arch, variant))) :
    pyTruthy os = true ∧ pyTruthy arch = true := by
  induction ms with
  | nil => simp [platformFromManifests] at h
  | cons m rest ih =>
    simp only [platformFromManifests] at h
    split at h
    · split at h
      · split at h
        · simp only [Except.ok.injEq, Option.some.injEq, Prod.mk.injEq] at h
          obtain ⟨ho, ha, _⟩ := h
          constructor
          · rw [← ho]
            exact pyOr_truthy _ _ rfl
          · rw [← ha]
            exact pyOr_truthy _ _ rfl
        · exact ih h
      · simp at h
    · simp at h

/-- C10: whenever platform resolution yields a (non-null) triple, the
`platform_args` segment of the copy command contains a `--override-os` flag
and a `--override-arch` flag — the os and architecture components are
`or`-defaulted to the truthy values "linux" and "amd64", so their guards
never fail — and only the `--override-variant` flag can be absent, exactly
when the variant component is falsy. -/
theorem platform_some_implies_os_arch_flags (inspection : PJson)
    (os arch variant : PJson)
    (h : get_platform_from_inspection inspection =
      .ok (some (os, arch, variant))) :
    (∃ v, ("--override-os=" ++ v) ∈
      dockerPlatformArgs (some (os, arch, variant))) ∧
    (∃ v, ("--override-arch=" ++ v) ∈
      dockerPlatformArgs (some (os, arch, variant))) ∧
    (pyTruthy variant = false →
      dockerPlatformArgs (some (os, arch, variant)) =
        ["--override-os=" ++ pyFormat os,
         "--override-arch=" ++ pyFormat arch]) := by
  have hta : pyTruthy os = true ∧ pyTruthy arch = true := by
    simp only [get_platform_from_inspection] at h
    split at h
    · split at h
      · exact platformFromManifests_truthy _ _ _ _ h
      · simp at h
      · simp at h
      · simp at h
    · simp at h
  obtain ⟨hos, harch⟩ := hta
  refine ⟨⟨pyFormat os, ?_⟩, ⟨pyFormat arch, ?_⟩, ?_⟩
  · simp [dockerPlatformArgs, hos]
  · simp [dockerPlatformArgs, harch]
  · intro hv
    simp [dockerPlatformArgs, hos, harch, hv]

/-- C8: when the location provider's directory for the registry tool is not
an existing directory, `_get_skopeo_location` and with it every registry
fetch path (`get_docker_image_platform` and `fetch_docker_image`) fails
with the tool-not-installed error, whose message names the plugin/install
remediation; routed through `fetch_urls`, such a reference lands in
`errors` and nothing lands in `downloads`. -/
theorem skopeo_missing_tool_not_installed (env : Env) (ref : String)
    (toDir : Option String) (fs : FS)
    (hdir : env.isDir env.skopeoBindir = false)
    (hdocker : pyStartsWith ref "docker://" = true) :
    _get_skopeo_location env = .error (.toolNotInstalled skopeoMissingMsg) ∧
    (get_docker_image_platform env ref fs).1 =
      .error (.toolNotInstalled skopeoMissingMsg) ∧
    (fetch_docker_image env ref toDir fs).1 =
      .error (.toolNotInstalled skopeoMissingMsg) ∧
    (fetch_urls env (.list [ref]) fs).1 = ([], [ref]) ∧
    (∃ p q, skopeoMissingMsg = p ++ "plugin" ++ q) ∧
    (∃ p q, skopeoMissingMsg = p ++ "install" ++ q) := by
  have hloc : _get_skopeo_location env =
      .error (.toolNotInstalled skopeoMissingMsg) := by
    simp [_get_skopeo_location, hdir]
  have hfd : (fetch_docker_image env ref toDir fs).1 =
      .error (.toolNotInstalled skopeoMissingMsg) := by
    simp only [fetch_docker_image, hloc]
  refine ⟨hloc, ?_, hfd, ?_, ?_, ?_⟩
  · simp only [get_docker_image_platform, hloc]
  · have hget : _get_fetcher ref = .dockerImage := by
      simp only [_get_fetcher, hdocker, if_true]
    have happ : (applyFetcher env ref fs).1 =
        .error (.toolNotInstalled skopeoMissingMsg) := by
      unfold applyFetcher
      rw [hget]
      simp only [fetch_docker_image, hloc]
    simp only [fetch_urls, inputUris, fetchUrlsLoop]
    rw [runFetchLoop_error_head (applyFetcher env) ref [] fs
      (.toolNotInstalled skopeoMissingMsg) happ]
    simp only [runFetchLoop]
  · exact ⟨"CRITICAL: skopeo executable is not installed. Unable to continue: you need to install a valid fetchcode_container ",
      " with a valid executable available.", rfl⟩
  · exact ⟨"CRITICAL: skopeo executable is not ",
      "ed. Unable to continue: you need to install a valid fetchcode_container plugin with a valid executable available.", rfl⟩

/-- An empty filesystem used as the concrete starting state of witnesses. -/
def fsEmpty : FS := { files := fun _ => none, dirs := [], tmpCounter := 0 }

/-- A concrete environment: one 404 URL, one 200 URL with a
`Content-Disposition` filename, every other URL redirecting to
`https://host/final/name.tar.gz`; skopeo installed, its inspect output
decoding to an empty object, its copy writing three bytes at
`/dl/img.tar`. -/
def envBase : Env :=
  { http := fun u =>
      if u = "http://host/missing.zip" then
        { status_code := 404, cdParams := [], url := u, content := [] }
      else if u = "http://host/cd.zip" then
        { status_code := 200, cdParams := [("filename", "x.zip")],
          url := "http://host/cd.zip", content := [1, 2, 3] }
      else
        { status_code := 200, cdParams := [],
          url := "https://host/final/name.tar.gz", content := [5, 6] },
    md5 := fun c => "md5-" ++ toString c.length,
    sha1 := fun c => "sha1-" ++ toString c.length,
    skopeoBindir := "/opt/skopeo/bin",
    isDir := fun p => p = "/opt/skopeo/bin",
    runCommand := fun _ => (0, "inspect-output"),
    runEffect := fun _ fs => writeFile fs "/dl/img.tar" [9, 9, 9],
    parseJson := fun _ => .ok (.obj []),
    pythonSafeName := fun _ => "img" }

/-- `envBase` with the location provider pointing at a non-directory. -/
def envNoSkopeo : Env := { envBase with isDir := fun _ => false }

/-- The `Download` produced by `envBase` for `http://host/cd.zip`. -/
def httpD : Download :=
  { uri := "http://host/cd.zip", directory := "/dl", filename := "x.zip",
    path := "/dl/x.zip", size := 3, sha1 := "sha1-3", md5 := "md5-3" }

/-- The `Download` produced by `envBase` for `http://host/other`, whose
response redirects to `https://host/final/name.tar.gz`. -/
def otherD : Download :=
  { uri := "http://host/other", directory := "/dl",
    filename := "name.tar.gz", path := "/dl/name.tar.gz", size := 2,
    sha1 := "sha1-2", md5 := "md5-2" }

/-- The `Download` produced by `envBase` for `docker://busybox`. -/
def dockerD : Download :=
  { uri := "docker://busybox", directory := "/dl", filename := "img.tar",
    path := "/dl/img.tar", size := 3, sha1 := "sha1-3", md5 := "md5-3" }

/-- Witness for C2 at a concrete failing first URL: the URL whose fetch
404s is recorded in `errors` and the rest of the batch still runs. -/
theorem fetch_urls_isolates_fetcher_errors_witness :
    fetch_urls envBase
        (.list ["http://host/missing.zip", "http://host/cd.zip"]) fsEmpty =
      (((fetchUrlsLoop envBase ["http://host/cd.zip"] fsEmpty).1.1,
        "http://host/missing.zip" ::
          (fetchUrlsLoop envBase ["http://host/cd.zip"] fsEmpty).1.2),
       (fetchUrlsLoop envBase ["http://host/cd.zip"] fsEmpty).2) :=
  fetch_urls_isolates_fetcher_errors envBase "http://host/missing.zip"
    ["http://host/cd.zip"] fsEmpty fsEmpty .requestException rfl

/-- Witness for C3 at concrete successful HTTP and registry fetches. -/
theorem download_only_after_verified_write_witness :
    (∃ c, ((fetch_http envBase "http://host/cd.zip" (some "/dl")
        fsEmpty).2).files httpD.path = some c ∧
      httpD.md5 = envBase.md5 c ∧ httpD.sha1 = envBase.sha1 c ∧
      httpD.size = c.length) ∧
    (∃ c, ((fetch_docker_image envBase "docker://busybox" (some "/dl")
        fsEmpty).2).files dockerD.path = some c ∧
      dockerD.md5 = envBase.md5 c ∧ dockerD.sha1 = envBase.sha1 c ∧
      dockerD.size = c.length) :=
  ⟨(download_only_after_verified_write envBase "http://host/cd.zip"
      (some "/dl") fsEmpty).1 httpD rfl,
   (download_only_after_verified_write envBase "docker://busybox"
      (some "/dl") fsEmpty).2 dockerD rfl⟩

/-- Witness for C5: the 404 URL yields the HTTP-status error, and a
successful fetch certifies a 200 status. -/
theorem fetch_http_requires_status_200_witness :
    (fetch_http envBase "http://host/missing.zip" (some "/dl") fsEmpty).1 =
        .error .requestException ∧
    (envBase.http "http://host/cd.zip").status_code = 200 :=
  ⟨(fetch_http_requires_status_200 envBase "http://host/missing.zip"
      (some "/dl") fsEmpty).1 (by decide),
   (fetch_http_requires_status_200 envBase "http://host/cd.zip"
      (some "/dl") fsEmpty).2 httpD rfl⟩

/-- Witness for C6: the `Content-Disposition` filename wins when present,
and without it the final segment of the post-redirect URL is used. -/
theorem fetch_http_filename_resolution_witness :
    httpD.filename = "x.zip" ∧ otherD.filename = "name.tar.gz" :=
  ⟨(fetch_http_filename_resolution envBase "http://host/cd.zip"
      (some "/dl") fsEmpty httpD rfl).1 "x.zip" rfl (by decide),
   (fetch_http_filename_resolution envBase "http://host/other"
      (some "/dl") fsEmpty otherD rfl).2 (Or.inl rfl)⟩

/-- Witness for C9 at the concrete 404 URL: the state is untouched. -/
theorem fetch_http_non_200_leaves_fs_unchanged_witness :
    fetch_http envBase "http://host/missing.zip" (some "/dl") fsEmpty =
      (.error .requestException, fsEmpty) :=
  fetch_http_non_200_leaves_fs_unchanged envBase "http://host/missing.zip"
    (some "/dl") fsEmpty (by decide)

/-- The spec's own C4 example: a windows/amd64 entry followed by a
linux/arm/v7 entry. -/
def manifestWinFields : List (String × PJson) :=
  [("platform", .obj [("os", .str "windows"), ("architecture", .str "amd64")])]

/-- The platform object of the first (windows) manifest entry. -/
def platformWinFields : List (String × PJson) :=
  [("os", .str "windows"), ("architecture", .str "amd64")]

/-- Inspect output fields holding the two-entry manifest list. -/
def inspectionTwoEntries : List (String × PJson) :=
  [("manifests", .arr
    [.obj manifestWinFields,
     .obj [("platform", .obj [("os", .str "linux"),
       ("architecture", .str "arm"), ("variant", .str "v7")])]])]

/-- Witness for C4 on the spec's example: the first entry wins and the
missing variant defaults to the empty string. -/
theorem platform_first_entry_wins_witness :
    get_platform_from_inspection (.obj inspectionTwoEntries) =
      .ok (some (.str "windows", .str "amd64", .str "")) :=
  platform_first_entry_wins inspectionTwoEntries []
    [.obj [("platform", .obj [("os", .str "linux"),
      ("architecture", .str "arm"), ("variant", .str "v7")])]]
    manifestWinFields platformWinFields rfl
    (fun e he => absurd he (List.not_mem_nil e)) rfl rfl

/-- Witness for C7 on an inspect output with no `manifests` key. -/
theorem platform_none_and_no_override_flags_witness :
    get_platform_from_inspection (.obj []) = .ok none ∧
      dockerPlatformArgs none = [] ∧
      String.intercalate " " (dockerPlatformArgs none) = "" :=
  platform_none_and_no_override_flags [] [] rfl
    (fun e he => absurd he (List.not_mem_nil e))

/-- Inspect output whose only manifest entry specifies just an
architecture: os defaults to "linux", the variant stays falsy. -/
def inspectionArmOnly : PJson :=
  .obj [("manifests", .arr
    [.obj [("platform", .obj [("architecture", .str "arm")])]])]

/-- Witness for C10 on a resolved (linux, arm, "") triple: both mandatory
override flags are present and the variant flag is absent. -/
theorem platform_some_implies_os_arch_flags_witness :
    (∃ v, ("--override-os=" ++ v) ∈
      dockerPlatformArgs (some (.str "linux", .str "arm", .str ""))) ∧
    (∃ v, ("--override-arch=" ++ v) ∈
      dockerPlatformArgs (some (.str "linux", .str "arm", .str ""))) ∧
    (pyTruthy (.str "") = false →
      dockerPlatformArgs (some (.str "linux", .str "arm", .str "")) =
        ["--override-os=" ++ pyFormat (.str "linux"),
         "--override-arch=" ++ pyFormat (.str "arm")]) :=
  platform_some_implies_os_arch_flags inspectionArmOnly
    (.str "linux") (.str "arm") (.str "") rfl

/-- Witness for C8 with a location provider that resolves to a
non-directory. -/
theorem skopeo_missing_tool_not_installed_witness :
    _get_skopeo_location envNoSkopeo =
        .error (.toolNotInstalled skopeoMissingMsg) ∧
      (fetch_urls envNoSkopeo (.list ["docker://busybox"]) fsEmpty).1 =
        ([], ["docker://busybox"]) := by
  have h := skopeo_missing_tool_not_installed envNoSkopeo "docker://busybox"
    (some "/dl") fsEmpty rfl rfl
  exact ⟨h.1, h.2.2.2.1⟩
